import Mathlib

/-!
Verification development for the SendSeven n8n community node
(`nodes/SendSeven/GenericFunctions.ts`, `nodes/SendSeven/SendSeven.node.ts`).

The TypeScript sources operate on already-parsed JSON (`IDataObject`
values). We model JSON values shallowly by the inductive `JVal`, with
JavaScript's `undefined` as an explicit constructor so that missing object
properties, truthiness checks (`if (x)`), the `||` operator and `String(x)`
conversions can be modelled faithfully.
-/

/-- A JavaScript runtime value as manipulated by the node's code:
`undefined`, `null`, booleans, numbers (the sources only ever deal with
integral values: page counters, counts, HTTP status codes), strings,
arrays and plain objects (ordered key/value lists). -/
inductive JVal where
  | undefined : JVal
  | null : JVal
  | bool : Bool → JVal
  | num : Int → JVal
  | str : String → JVal
  | arr : List JVal → JVal
  | obj : List (String × JVal) → JVal
deriving Repr

/-- Property access `v[k]` when the property exists: only objects carry
properties in this model; on every other value the access yields nothing
(JavaScript's `undefined`, or a TypeError that the sources never trigger). -/
def jGet : JVal → String → Option JVal
  | .obj fields, k => fields.lookup k
  | _, _ => none

/-- Property access `v[k]`, with a missing property read as `undefined`,
exactly as in JavaScript. -/
def jGetD (v : JVal) (k : String) : JVal :=
  (jGet v k).getD .undefined

/-- JavaScript truthiness: `undefined`, `null`, `false`, `0` and `""` are
falsy; every other value (including every array and object) is truthy. -/
def truthy : JVal → Bool
  | .undefined => false
  | .null => false
  | .bool b => b
  | .num n => n != 0
  | .str s => s != ""
  | .arr _ => true
  | .obj _ => true

/-- JavaScript `a || b`: the left operand when truthy, otherwise the right. -/
def jOr (a b : JVal) : JVal :=
  if truthy a then a else b

/-- JavaScript strict equality `v === (s : string)`: true exactly when
`v` is the same string primitive. -/
def jsEqStr (v : JVal) (s : String) : Bool :=
  match v with
  | .str t => t == s
  | _ => false

/-- JavaScript strict equality `v === (n : number)`: true exactly when
`v` is the same number primitive. -/
def jsEqNum (v : JVal) (n : Int) : Bool :=
  match v with
  | .num m => m == n
  | _ => false

/-- JavaScript `String(v)` conversion for the values of this model.
Arrays stringify as the comma-separated join of their elements, with
`null`/`undefined` elements contributing the empty string; plain objects
stringify as `"[object Object]"`. -/
def jsString : JVal → String
  | .undefined => "undefined"
  | .null => "null"
  | .bool b => if b then "true" else "false"
  | .num n => toString n
  | .str s => s
  | .obj _ => "[object Object]"
  | .arr xs => jsStringJoin xs
where
  /-- Model of `Array.prototype.toString`: `join(",")`. -/
  jsStringJoin : List JVal → String
  | [] => ""
  | [x] => jsStringElem x
  | x :: xs => jsStringElem x ++ "," ++ jsStringJoin xs
  /-- A single array element inside `join`: `null`/`undefined` become `""`. -/
  jsStringElem : JVal → String
  | .undefined => ""
  | .null => ""
  | v => jsString v

/-!
## `GenericFunctions.ts`
-/

/-- One page of a paginated SendSeven API response, as consumed by
`sendSevenApiRequestAllItems`: the array under the items key
(`(responseData[itemsKey] as IDataObject[]) || []`, a missing or falsy
value read as the empty list) and, when the `pagination` envelope object is
present, its `page` and `total_pages` numbers. -/
structure PageResponse where
  items : List JVal
  pagination : Option (Int × Int)

/-- The body of the `while (hasMore)` loop of `sendSevenApiRequestAllItems`
(`GenericFunctions.ts:87-116`), entered with the current `page` counter,
the items collected so far (`allItems`) and the number of page requests
already issued. The simulated API is the function `api` from the page
number to the response of `GET endpoint ?page=page&page_size=100`.
Returns the collected items together with the total number of requests.

Faithful to the source: the items of the response are appended; `hasMore`
is `pagination.page < pagination.total_pages` when the envelope is
present, else `items.length === pageSize` with `pageSize = 100`; `page`
is incremented; the loop breaks unconditionally once `page > 100`
("Safety limit to prevent infinite loops"), and otherwise continues while
`hasMore`. -/
def allItemsLoop (api : Nat → PageResponse) (page : Nat) (allItems : List JVal)
    (requests : Nat) : List JVal × Nat :=
  let response := api page
  let items := response.items
  let collected := allItems ++ items
  let hasMore : Bool :=
    match response.pagination with
    | some (currentPage, totalPages) => currentPage < totalPages
    | none => items.length == 100
  let nextPage := page + 1
  if h : nextPage > 100 then
    (collected, requests + 1)
  else if hasMore then
    allItemsLoop api nextPage collected (requests + 1)
  else
    (collected, requests + 1)
termination_by 101 - page
decreasing_by
  simp only [not_lt] at h
  omega

/-- Model of `sendSevenApiRequestAllItems` (`GenericFunctions.ts:76-119`): runs the
pagination loop from `page = 1` with no items collected and returns the
combined item list. -/
def sendSevenApiRequestAllItems (api : Nat → PageResponse) : List JVal :=
  (allItemsLoop api 1 [] 0).1

/-- The number of page requests `sendSevenApiRequestAllItems` issues
against the simulated API `api` (one per iteration of its loop). -/
def sendSevenApiRequestAllItemsRequestCount (api : Nat → PageResponse) : Nat :=
  (allItemsLoop api 1 [] 0).2

/-- The HTTP request options built by `sendSevenApiRequest`
(`GenericFunctions.ts:37-53`): `qs` and `body` are `none` when the
corresponding `delete options.xxx` ran. -/
structure HttpRequestOptions where
  method : String
  url : String
  qs : Option (List (String × JVal))
  body : Option (List (String × JVal))
  json : Bool
deriving Repr

/-- The host-recognized API error thrown by `sendSevenApiRequest`:
`new NodeApiError(node, error, \x7b message: getErrorMessage(error) \x7d)`
carries the raw error and the extracted message. -/
structure NodeApiError where
  raw : JVal
  message : String
deriving Repr

/-- The n8n execution context as seen by `GenericFunctions.ts`:
`this.getCredentials(type)` either yields credentials or throws, and
`this.helpers.httpRequestWithAuthentication(credentialType, options)`
either yields a parsed JSON response or throws an error value. -/
structure ApiEnv where
  getCredentials : String → Except JVal Unit
  httpRequestWithAuthentication : String → HttpRequestOptions → Except JVal JVal

/-- Constant `API_BASE_URL` (`GenericFunctions.ts:18`). -/
def API_BASE_URL : String := "https://api.sendseven.com/api/v1"

/-- Model of `getCredentialType` (`GenericFunctions.ts:124-135`): try reading the
OAuth2 credentials; on success use `sendSevenOAuth2Api`, on any failure
fall back to `sendSevenApi`. The catch swallows the error, so the
function itself never fails (it is total). -/
def getCredentialType (getCredentials : String → Except JVal Unit) : String :=
  match getCredentials "sendSevenOAuth2Api" with
  | .ok _ => "sendSevenOAuth2Api"
  | .error _ => "sendSevenApi"

/-- Model of `getErrorMessage` (`GenericFunctions.ts:140-163`): prefer
`err.response.body.detail`, then `err.response.body.message` (each guarded
by the source's truthiness checks `if (err.response)`, `if (body)`,
`if (body.detail)`, `if (body.message)`), then `err.message`, then the
generic string. Early `return String(...)` is modelled by the
`Option String` of the response-derived message. -/
def getErrorMessage (error : JVal) : String :=
  let response := jGetD error "response"
  let fromResponse : Option String :=
    if truthy response then
      let body := jGetD response "body"
      if truthy body then
        if truthy (jGetD body "detail") then
          some (jsString (jGetD body "detail"))
        else if truthy (jGetD body "message") then
          some (jsString (jGetD body "message"))
        else
          none
      else
        none
    else
      none
  match fromResponse with
  | some s => s
  | none =>
    if truthy (jGetD error "message") then
      jsString (jGetD error "message")
    else
      "An unknown error occurred"

/-- The `options` object of `sendSevenApiRequest`
(`GenericFunctions.ts:37-53`): base URL plus endpoint, with the body
removed for GET requests or when empty, and the query removed when
empty. -/
def buildRequestOptions (method endpoint : String)
    (body query : List (String × JVal)) : HttpRequestOptions :=
  { method := method
    url := API_BASE_URL ++ endpoint
    qs := if query.isEmpty then none else some query
    body := if method = "GET" || body.isEmpty then none else some body
    json := true }

/-- Model of `sendSevenApiRequest` (`GenericFunctions.ts:30-64`): build the
options, pick the credential type (OAuth2 with API-key fallback), perform
the authenticated request, and wrap any failure in a single
`NodeApiError` whose message is extracted by `getErrorMessage`. -/
def sendSevenApiRequest (env : ApiEnv) (method endpoint : String)
    (body query : List (String × JVal)) : Except NodeApiError JVal :=
  let options := buildRequestOptions method endpoint body query
  let credentialType := getCredentialType env.getCredentials
  match env.httpRequestWithAuthentication credentialType options with
  | .ok response => .ok response
  | .error e => .error { raw := e, message := getErrorMessage e }

/-- The error-message selection rule as the specification words it (first
usable field among the response body's `detail`, the response body's
`message` and the error's own `message`, each counted as usable when
present and truthy, else the generic string); written independently of
the nested guard structure of `getErrorMessage` for comparison with it. -/
def errMessageSpec (error : JVal) : String :=
  let body := jGetD (jGetD error "response") "body"
  if truthy (jGetD body "detail") then jsString (jGetD body "detail")
  else if truthy (jGetD body "message") then jsString (jGetD body "message")
  else if truthy (jGetD error "message") then jsString (jGetD error "message")
  else "An unknown error occurred"

/-!
## `SendSeven.node.ts` — execute paths
-/

/-- The contact-create branch of `SendSeven.execute`
(`SendSeven.node.ts:791-817`) up to the outgoing `POST /contacts` call:
from the node parameters `name`, `email`, `phone` (strings defaulting to
`''`) and the `additionalFields` collection (a JavaScript object), build
the request body. `JSON.parse` is the JavaScript builtin, passed in as
`jsonParse`. Faithful to the source: the `email`/`phone` guard throws;
each field is added only when truthy, in source order; a string-typed
`customFields` is parsed, any other truthy value is passed through. -/
def buildContactCreateBody (jsonParse : String → JVal)
    (name email phone : String) (additionalFields : JVal) :
    Except String (List (String × JVal)) :=
  if email = "" ∧ phone = "" then
    .error "Either email or phone is required to create a contact"
  else
    let body : List (String × JVal) := []
    let body := if name ≠ "" then body ++ [("name", JVal.str name)] else body
    let body := if email ≠ "" then body ++ [("email", JVal.str email)] else body
    let body := if phone ≠ "" then body ++ [("phone", JVal.str phone)] else body
    let body :=
      if truthy (jGetD additionalFields "firstName") then
        body ++ [("first_name", jGetD additionalFields "firstName")]
      else body
    let body :=
      if truthy (jGetD additionalFields "lastName") then
        body ++ [("last_name", jGetD additionalFields "lastName")]
      else body
    let body :=
      if truthy (jGetD additionalFields "company") then
        body ++ [("company", jGetD additionalFields "company")]
      else body
    let body :=
      if truthy (jGetD additionalFields "notes") then
        body ++ [("notes", jGetD additionalFields "notes")]
      else body
    let body :=
      if truthy (jGetD additionalFields "customFields") then
        body ++ [("custom_fields",
          match jGetD additionalFields "customFields" with
          | JVal.str s => jsonParse s
          | v => v)]
      else body
    .ok body

/-- The whatsappTemplate-send branch of `SendSeven.execute`
(`SendSeven.node.ts:961-999`) up to the outgoing `POST /messages` call:
build the request body from the channel, recipient, template name and
language, and the list of entries of `templateVariables.variables`
(`(variablesData.variables as IDataObject[]) || []`). When at least one
variable is present, a single body component is attached to the template
object whose parameters map each variable `v` to
`\x7b type: 'text', text: String(v.value) \x7d`. -/
def buildTemplateSendBody (toRecipient channelId templateName templateLanguage : String)
    (vars : List JVal) : JVal :=
  let templateObj : List (String × JVal) :=
    [("name", JVal.str templateName),
     ("language", JVal.obj [("code", JVal.str templateLanguage)])]
  let templateObj :=
    if vars.length > 0 then
      templateObj ++ [("components", JVal.arr
        [JVal.obj [("type", JVal.str "body"),
          ("parameters", JVal.arr (vars.map (fun v =>
            JVal.obj [("type", JVal.str "text"),
                      ("text", JVal.str (jsString (jGetD v "value")))])))]])]
    else templateObj
  let content : JVal :=
    JVal.obj [("type", JVal.str "template"), ("template", JVal.obj templateObj)]
  JVal.obj [("to", JVal.str toRecipient), ("channel_id", JVal.str channelId),
            ("content", content)]

/-!
## `SendSeven.node.ts` — trigger node
-/

/-- Model of `formatContactResponse` (`GenericFunctions.ts:224-239`): one-way
snake_case-to-camelCase rename of the contact fields. -/
def formatContactResponse (contact : JVal) : JVal :=
  JVal.obj
    [("id", jGetD contact "id"),
     ("name", jGetD contact "name"),
     ("firstName", jGetD contact "first_name"),
     ("lastName", jGetD contact "last_name"),
     ("email", jGetD contact "email"),
     ("phone", jGetD contact "phone"),
     ("company", jGetD contact "company"),
     ("notes", jGetD contact "notes"),
     ("customFields", jGetD contact "custom_fields"),
     ("tags", jGetD contact "tags"),
     ("createdAt", jGetD contact "created_at"),
     ("updatedAt", jGetD contact "updated_at")]

/-- Model of `formatConversationResponse` (`GenericFunctions.ts:244-259`), with
`contact_name || conversation.contact?.name` modelled by `jOr`/`jGetD`
(optional chaining on a non-object yields `undefined`, as does `jGetD`). -/
def formatConversationResponse (conversation : JVal) : JVal :=
  JVal.obj
    [("id", jGetD conversation "id"),
     ("contactId", jGetD conversation "contact_id"),
     ("contactName", jOr (jGetD conversation "contact_name")
        (jGetD (jGetD conversation "contact") "name")),
     ("channelType", jGetD conversation "channel_type"),
     ("channelId", jGetD conversation "channel_id"),
     ("status", jGetD conversation "status"),
     ("assignedToUserId", jGetD conversation "assigned_to_user_id"),
     ("lastMessageAt", jGetD conversation "last_message_at"),
     ("messageCount", jGetD conversation "message_count"),
     ("unreadCount", jGetD conversation "unread_count"),
     ("createdAt", jGetD conversation "created_at"),
     ("updatedAt", jGetD conversation "updated_at")]

/-- Model of `!!(message.attachments as IDataObject[])?.length`: optional chaining
followed by double negation. Arrays and strings expose their `length`;
a plain object may carry a `length` property; every other value (or a
missing property) gives `undefined`, hence `false`. -/
def hasAttachmentsFlag (attachments : JVal) : Bool :=
  match attachments with
  | .arr xs => xs.length != 0
  | .str s => s.length != 0
  | .obj fields => truthy (jGetD (.obj fields) "length")
  | _ => false

/-- Model of `formatMessageResponse` (`GenericFunctions.ts:264-279`), with the `||`
fallbacks `message_type || type` and `text || content`. -/
def formatMessageResponse (message : JVal) : JVal :=
  JVal.obj
    [("id", jGetD message "id"),
     ("conversationId", jGetD message "conversation_id"),
     ("channelId", jGetD message "channel_id"),
     ("direction", jGetD message "direction"),
     ("messageType", jOr (jGetD message "message_type") (jGetD message "type")),
     ("text", jOr (jGetD message "text") (jGetD message "content")),
     ("status", jGetD message "status"),
     ("to", jGetD message "to"),
     ("from", jGetD message "from"),
     ("hasAttachments", JVal.bool (hasAttachmentsFlag (jGetD message "attachments"))),
     ("attachments", jGetD message "attachments"),
     ("createdAt", jGetD message "created_at")]

/-- The `IWebhookResponseData` returned by `SendSevenTrigger.webhook`:
either `\x7b noWebhookResponse: true \x7d` (no workflow output) or
`\x7b workflowData: [[\x7b json: item \x7d, ...]] \x7d`, modelled as the
list of output connections, each a list of item payloads. -/
inductive WebhookResponseData where
  | noWebhookResponse : WebhookResponseData
  | workflowData : List (List JVal) → WebhookResponseData
deriving Repr

/-- The ten event names handled by the `switch (receivedEvent)` of
`SendSevenTrigger.webhook` (`SendSeven.node.ts:1285-1376`); every other
event name falls to the `default` pass-through branch. -/
def knownTriggerEvents : List String :=
  ["message.received", "message.sent", "message.status_updated",
   "conversation.created", "conversation.closed",
   "contact.created", "contact.updated",
   "ticket.created", "ticket.closed", "campaign.sent"]

/-- Model of `SendSevenTrigger.webhook` (`SendSeven.node.ts:1256-1393`): given the
configured `event` parameter, the `x-sendseven-signature` request header
(if any), the stored `secretKey` static data and the parsed request body.
The body's `event` must be strictly equal (`!==`) to the configured event
string, otherwise the delivery is ignored. The signature block of the
source reads the header but performs no verification (the HMAC check is
commented out), modelled by the discarded `let`. The `switch` on the
event reshapes `body.data`; unknown events pass through raw. -/
def triggerWebhook (event : String) (signatureHeader : Option String)
    (secretKey : JVal) (body : JVal) : WebhookResponseData :=
  let receivedEvent := jGetD body "event"
  if ¬ jsEqStr receivedEvent event then
    .noWebhookResponse
  else
    let _ := if truthy secretKey then signatureHeader else none
    let data := jOr (jGetD body "data") (JVal.obj [])
    let formattedData : JVal :=
      if event = "message.received" ∨ event = "message.sent" ∨
          event = "message.status_updated" then
        let message := jOr (jGetD data "message") (JVal.obj [])
        let contact := jOr (jGetD data "contact") (JVal.obj [])
        let conversation := jOr (jGetD data "conversation") (JVal.obj [])
        JVal.obj
          [("id", jOr (jGetD message "id") (jGetD body "event_id")),
           ("event", JVal.str event),
           ("message", formatMessageResponse message),
           ("contact", if truthy (jGetD contact "id")
              then formatContactResponse contact else JVal.null),
           ("conversation", if truthy (jGetD conversation "id")
              then formatConversationResponse conversation else JVal.null),
           ("timestamp", jGetD body "timestamp")]
      else if event = "conversation.created" ∨ event = "conversation.closed" then
        let conversation := jOr (jGetD data "conversation") data
        let contact := jOr (jGetD data "contact") (JVal.obj [])
        JVal.obj
          [("id", jOr (jGetD conversation "id") (jGetD body "event_id")),
           ("event", JVal.str event),
           ("conversation", formatConversationResponse conversation),
           ("contact", if truthy (jGetD contact "id")
              then formatContactResponse contact else JVal.null),
           ("timestamp", jGetD body "timestamp")]
      else if event = "contact.created" ∨ event = "contact.updated" then
        let contact := jOr (jGetD data "contact") data
        JVal.obj
          [("id", jOr (jGetD contact "id") (jGetD body "event_id")),
           ("event", JVal.str event),
           ("contact", formatContactResponse contact),
           ("timestamp", jGetD body "timestamp")]
      else if event = "ticket.created" ∨ event = "ticket.closed" then
        let ticket := jOr (jGetD data "ticket") data
        let conversation := jOr (jGetD data "conversation") (JVal.obj [])
        let contact := jOr (jGetD data "contact") (JVal.obj [])
        JVal.obj
          [("id", jOr (jGetD ticket "id") (jGetD body "event_id")),
           ("event", JVal.str event),
           ("ticket", JVal.obj
             [("id", jGetD ticket "id"),
              ("status", jGetD ticket "status"),
              ("summary", jGetD ticket "summary"),
              ("conversationId", jOr (jGetD ticket "conversation_id")
                 (jGetD conversation "id")),
              ("assignedToUserId", jGetD ticket "assigned_to_user_id"),
              ("createdAt", jGetD ticket "created_at"),
              ("closedAt", jGetD ticket "closed_at")]),
           ("conversation", if truthy (jGetD conversation "id")
              then formatConversationResponse conversation else JVal.null),
           ("contact", if truthy (jGetD contact "id")
              then formatContactResponse contact else JVal.null),
           ("timestamp", jGetD body "timestamp")]
      else if event = "campaign.sent" then
        let campaign := jOr (jGetD data "campaign") data
        JVal.obj
          [("id", jOr (jGetD campaign "id") (jGetD body "event_id")),
           ("event", JVal.str event),
           ("campaign", JVal.obj
             [("id", jGetD campaign "id"),
              ("name", jGetD campaign "name"),
              ("type", jGetD campaign "type"),
              ("status", jGetD campaign "status"),
              ("sentCount", jGetD campaign "sent_count"),
              ("deliveredCount", jGetD campaign "delivered_count"),
              ("failedCount", jGetD campaign "failed_count"),
              ("sentAt", jGetD campaign "sent_at")]),
           ("timestamp", jGetD body "timestamp")]
      else
        JVal.obj
          [("id", jGetD body "event_id"),
           ("event", JVal.str event),
           ("data", data),
           ("timestamp", jGetD body "timestamp"),
           ("raw", body)]
    .workflowData [[formattedData]]

/-- Model of `SendSevenTrigger.webhookMethods.default.delete`
(`SendSeven.node.ts:1225-1249`): with the stored static-data `webhookId`
(`none` when the key is absent) and the outcome of
`DELETE /webhooks/:id` on each id, return the reported success flag
together with the number of delete requests issued. A falsy stored id
means nothing to delete (success, no request); a failed request whose
error's `httpCode || statusCode` is not the number `404` (strict `!==`)
is a failure; a 404 failure and a successful request both count as
successful cleanup. -/
def webhookDelete (webhookId : Option JVal)
    (deleteRequest : JVal → Except JVal Unit) : Bool × Nat :=
  let storedId := webhookId.getD JVal.undefined
  if ¬ truthy storedId then
    (true, 0)
  else
    match deleteRequest storedId with
    | .ok _ => (true, 1)
    | .error e =>
      if ¬ jsEqNum (jOr (jGetD e "httpCode") (jGetD e "statusCode")) 404 then
        (false, 1)
      else
        (true, 1)

/-!
## Theorems
-/

/-- C3: whenever reading the OAuth2 credentials (`sendSevenOAuth2Api`)
fails for any reason, `getCredentialType` returns the API-key credential
type `sendSevenApi` without raising an error (it is a total function),
and `sendSevenApiRequest` performs its request with that credential
type. -/
theorem credential_fallback_on_oauth2_failure
    (env : ApiEnv) (method endpoint : String)
    (body query : List (String × JVal)) (err : JVal)
    (h : env.getCredentials "sendSevenOAuth2Api" = .error err) :
    getCredentialType env.getCredentials = "sendSevenApi" ∧
    sendSevenApiRequest env method endpoint body query =
      (match env.httpRequestWithAuthentication "sendSevenApi"
          (buildRequestOptions method endpoint body query) with
       | .ok r => .ok r
       | .error e => .error { raw := e, message := getErrorMessage e }) := by
  have hc : getCredentialType env.getCredentials = "sendSevenApi" := by
    simp [getCredentialType, h]
  exact ⟨hc, by simp only [sendSevenApiRequest, hc]⟩

/-- Environment in which reading any credentials throws. -/
def oauthFailEnv : ApiEnv :=
  { getCredentials := fun _ => .error JVal.null
    httpRequestWithAuthentication := fun _ _ => .ok (JVal.obj []) }

/-- Concrete instance of `credential_fallback_on_oauth2_failure`. -/
theorem credential_fallback_on_oauth2_failure_witness :
    oauthFailEnv.getCredentials "sendSevenOAuth2Api" = .error JVal.null ∧
    getCredentialType oauthFailEnv.getCredentials = "sendSevenApi" ∧
    sendSevenApiRequest oauthFailEnv "GET" "/contacts" [] [] = .ok (JVal.obj []) := by
  have h := credential_fallback_on_oauth2_failure oauthFailEnv "GET" "/contacts"
    [] [] JVal.null rfl
  exact ⟨rfl, h.1, h.2⟩

/-- C5: a WhatsApp template send with exactly one entry in
`templateVariables.variables` produces a payload whose
`content.template.components` is a single body component with exactly one
parameter of type `text` whose text is the stringified variable value. -/
theorem template_single_variable_parameters
    (toRecipient channelId templateName templateLanguage : String) (v : JVal) :
    jGet (jGetD (jGetD (buildTemplateSendBody toRecipient channelId templateName
        templateLanguage [v]) "content") "template") "components" =
      some (JVal.arr [JVal.obj [("type", JVal.str "body"),
        ("parameters", JVal.arr [JVal.obj [("type", JVal.str "text"),
          ("text", JVal.str (jsString (jGetD v "value")))]])]]) := by
  rfl

/-- C6: a webhook delivery whose body `event` string differs from the
configured event produces no workflow output. -/
theorem webhook_event_mismatch_no_output
    (event received : String) (sig : Option String) (secretKey body : JVal)
    (hev : jGetD body "event" = JVal.str received)
    (hne : received ≠ event) :
    triggerWebhook event sig secretKey body = .noWebhookResponse := by
  simp [triggerWebhook, hev, jsEqStr, hne]

/-- Concrete instance of `webhook_event_mismatch_no_output`. -/
theorem webhook_event_mismatch_no_output_witness :
    jGetD (JVal.obj [("event", JVal.str "contact.created")]) "event" =
      JVal.str "contact.created" ∧
    "contact.created" ≠ "message.received" ∧
    triggerWebhook "message.received" none JVal.undefined
      (JVal.obj [("event", JVal.str "contact.created")]) = .noWebhookResponse := by
  refine ⟨rfl, by decide, ?_⟩
  exact webhook_event_mismatch_no_output "message.received" "contact.created"
    none JVal.undefined _ rfl (by decide)

/-- C9: the webhook handler's output never depends on the value or the
presence of the `x-sendseven-signature` header: signature verification is
unimplemented. -/
theorem webhook_signature_never_influences_output
    (event : String) (secretKey body : JVal) (sig1 sig2 : Option String) :
    triggerWebhook event sig1 secretKey body =
      triggerWebhook event sig2 secretKey body := rfl

/-- C10: a delivery whose body `event` equals the configured event but is
not one of the ten known event names still produces exactly one workflow
output item: the event name, the `event_id` as `id`, the unmodified
`data` object, the timestamp, and the complete raw body under `raw`. -/
theorem unknown_event_passthrough
    (event : String) (sig : Option String) (secretKey body : JVal)
    (dfields : List (String × JVal))
    (hev : jGetD body "event" = JVal.str event)
    (hknown : event ∉ knownTriggerEvents)
    (hdata : jGetD body "data" = JVal.obj dfields) :
    triggerWebhook event sig secretKey body =
      .workflowData [[JVal.obj
        [("id", jGetD body "event_id"),
         ("event", JVal.str event),
         ("data", JVal.obj dfields),
         ("timestamp", jGetD body "timestamp"),
         ("raw", body)]]] := by
  simp only [knownTriggerEvents, List.mem_cons, List.not_mem_nil, or_false,
    not_or] at hknown
  obtain ⟨h1, h2, h3, h4, h5, h6, h7, h8, h9, h10⟩ := hknown
  simp [triggerWebhook, hev, hdata, jsEqStr, jOr, truthy,
    h1, h2, h3, h4, h5, h6, h7, h8, h9, h10]

/-- Concrete instance of `unknown_event_passthrough`. -/
theorem unknown_event_passthrough_witness :
    triggerWebhook "custom.event" none JVal.undefined
      (JVal.obj [("event", JVal.str "custom.event"),
                 ("event_id", JVal.str "evt_1"),
                 ("data", JVal.obj [("k", JVal.num 1)]),
                 ("timestamp", JVal.str "2024-01-01")]) =
      .workflowData [[JVal.obj
        [("id", jGetD (JVal.obj [("event", JVal.str "custom.event"),
                 ("event_id", JVal.str "evt_1"),
                 ("data", JVal.obj [("k", JVal.num 1)]),
                 ("timestamp", JVal.str "2024-01-01")]) "event_id"),
         ("event", JVal.str "custom.event"),
         ("data", JVal.obj [("k", JVal.num 1)]),
         ("timestamp", jGetD (JVal.obj [("event", JVal.str "custom.event"),
                 ("event_id", JVal.str "evt_1"),
                 ("data", JVal.obj [("k", JVal.num 1)]),
                 ("timestamp", JVal.str "2024-01-01")]) "timestamp"),
         ("raw", JVal.obj [("event", JVal.str "custom.event"),
                 ("event_id", JVal.str "evt_1"),
                 ("data", JVal.obj [("k", JVal.num 1)]),
                 ("timestamp", JVal.str "2024-01-01")])]]] := by
  exact unknown_event_passthrough "custom.event" none JVal.undefined _ _
    rfl (by decide) rfl

/-- C7: the trigger's delete lifecycle reports success when no webhook id
is stored (without issuing a request), when the DELETE succeeds, and when
it fails with a 404; it reports failure on any other deletion failure. -/
theorem webhook_delete_idempotent
    (deleteRequest : JVal → Except JVal Unit) (wid e : JVal) :
    webhookDelete none deleteRequest = (true, 0) ∧
    (truthy wid = true → deleteRequest wid = .ok () →
      webhookDelete (some wid) deleteRequest = (true, 1)) ∧
    (truthy wid = true → deleteRequest wid = .error e →
      jOr (jGetD e "httpCode") (jGetD e "statusCode") = JVal.num 404 →
      webhookDelete (some wid) deleteRequest = (true, 1)) ∧
    (truthy wid = true → deleteRequest wid = .error e →
      jsEqNum (jOr (jGetD e "httpCode") (jGetD e "statusCode")) 404 = false →
      webhookDelete (some wid) deleteRequest = (false, 1)) := by
  refine ⟨by simp [webhookDelete, truthy], ?_, ?_, ?_⟩
  · intro hw hok
    simp [webhookDelete, hw, hok]
  · intro hw herr h404
    simp [webhookDelete, hw, herr, h404, jsEqNum]
  · intro hw herr hne
    simp [webhookDelete, hw, herr, hne]

/-- Concrete instances of `webhook_delete_idempotent`: nothing stored,
successful delete, 404 failure, 500 failure. -/
theorem webhook_delete_idempotent_witness :
    webhookDelete none (fun _ => Except.ok ()) = (true, 0) ∧
    webhookDelete (some (JVal.str "wh_1")) (fun _ => Except.ok ()) = (true, 1) ∧
    webhookDelete (some (JVal.str "wh_1"))
      (fun _ => Except.error (JVal.obj [("httpCode", JVal.num 404)])) = (true, 1) ∧
    webhookDelete (some (JVal.str "wh_1"))
      (fun _ => Except.error (JVal.obj [("httpCode", JVal.num 500)])) = (false, 1) := by
  refine ⟨(webhook_delete_idempotent (fun _ => Except.ok ()) JVal.undefined JVal.undefined).1,
    (webhook_delete_idempotent (fun _ => Except.ok ()) (JVal.str "wh_1")
      JVal.undefined).2.1 rfl rfl,
    (webhook_delete_idempotent _ (JVal.str "wh_1")
      (JVal.obj [("httpCode", JVal.num 404)])).2.2.1 rfl rfl rfl,
    (webhook_delete_idempotent _ (JVal.str "wh_1")
      (JVal.obj [("httpCode", JVal.num 500)])).2.2.2 rfl rfl rfl⟩

/-- A property read on a falsy value yields `undefined` (falsy values are
never objects with properties). -/
lemma jGetD_undef_of_falsy (v : JVal) (k : String) (h : truthy v = false) :
    jGetD v k = JVal.undefined := by
  cases v <;> simp_all [jGetD, jGet, truthy]

/-- Reading a property of `undefined` yields `undefined`. -/
lemma jGetD_undefined (k : String) : jGetD JVal.undefined k = JVal.undefined := rfl

/-- The value `undefined` is falsy. -/
lemma truthy_undefined : truthy JVal.undefined = false := rfl

/-- The nested truthiness guards of `getErrorMessage` select exactly the
field that `errMessageSpec` describes. -/
lemma getErrorMessage_eq_spec (e : JVal) : getErrorMessage e = errMessageSpec e := by
  unfold getErrorMessage errMessageSpec
  cases hr : truthy (jGetD e "response") with
  | false =>
    have hbody : jGetD (jGetD e "response") "body" = JVal.undefined :=
      jGetD_undef_of_falsy _ _ hr
    simp [hr, hbody, jGetD_undefined, truthy_undefined]
  | true =>
    cases hb : truthy (jGetD (jGetD e "response") "body") with
    | false =>
      have hdetail : jGetD (jGetD (jGetD e "response") "body") "detail" = JVal.undefined :=
        jGetD_undef_of_falsy _ _ hb
      have hmsg : jGetD (jGetD (jGetD e "response") "body") "message" = JVal.undefined :=
        jGetD_undef_of_falsy _ _ hb
      simp [hr, hb, hdetail, hmsg, truthy_undefined]
    | true =>
      cases hd : truthy (jGetD (jGetD (jGetD e "response") "body") "detail") <;>
        cases hm : truthy (jGetD (jGetD (jGetD e "response") "body") "message") <;>
          simp [hr, hb, hd, hm]

/-- The response body used in the counterexample to the claim that the
extracted message is the body's `detail` field whenever it is present:
here `detail` is present but empty. -/
def c8ErrBody : JVal := JVal.obj [("detail", JVal.str ""), ("message", JVal.str "boom")]

/-- An HTTP error carrying `c8ErrBody` as its response body. -/
def c8Err : JVal := JVal.obj [("response", JVal.obj [("body", c8ErrBody)])]

/-- Environment whose HTTP request always fails with `c8Err`. -/
def c8Env : ApiEnv :=
  { getCredentials := fun _ => .error JVal.null
    httpRequestWithAuthentication := fun _ _ => .error c8Err }

/-- C8 counterexample: the response body's `detail` field is present
(as the empty string), yet the rethrown error's message is the body's
`message` field, not the stringified `detail`. -/
theorem api_error_detail_present_counterexample :
    jGet c8ErrBody "detail" = some (JVal.str "") ∧
    sendSevenApiRequest c8Env "GET" "/contacts" [] [] =
      .error { raw := c8Err, message := "boom" } ∧
    jsString (JVal.str "") ≠ "boom" := by
  refine ⟨rfl, ?_, by simp [jsString]⟩
  simp [sendSevenApiRequest, c8Env, getCredentialType, getErrorMessage,
    c8Err, c8ErrBody, jGetD, jGet, truthy, jsString, List.lookup]

/-- C8 (amended): every error raised by the underlying HTTP request is
rethrown as a single API error whose message is the response body's
`detail` field when present and truthy (in particular non-empty),
otherwise the response body's `message` field when present and truthy,
otherwise the raw error's own `message` when truthy, otherwise the
generic string. -/
theorem api_error_rethrow_message
    (env : ApiEnv) (method endpoint : String)
    (body query : List (String × JVal)) (e : JVal)
    (h : env.httpRequestWithAuthentication (getCredentialType env.getCredentials)
        (buildRequestOptions method endpoint body query) = .error e) :
    sendSevenApiRequest env method endpoint body query =
      .error { raw := e, message := errMessageSpec e } := by
  simp [sendSevenApiRequest, h, getErrorMessage_eq_spec]

/-- Environment whose HTTP request fails with a bare error carrying only
its own `message`. -/
def c8WitnessEnv : ApiEnv :=
  { getCredentials := fun _ => .error JVal.null
    httpRequestWithAuthentication :=
      fun _ _ => .error (JVal.obj [("message", JVal.str "net down")]) }

/-- Concrete instance of `api_error_rethrow_message`. -/
theorem api_error_rethrow_message_witness :
    sendSevenApiRequest c8WitnessEnv "GET" "/contacts" [] [] =
      .error { raw := JVal.obj [("message", JVal.str "net down")],
               message := errMessageSpec (JVal.obj [("message", JVal.str "net down")]) } ∧
    errMessageSpec (JVal.obj [("message", JVal.str "net down")]) = "net down" := by
  refine ⟨api_error_rethrow_message c8WitnessEnv "GET" "/contacts" [] [] _ rfl, ?_⟩
  simp [errMessageSpec, jGetD, jGet, truthy, jsString, List.lookup]


/-- Distribute a conditional single-entry append out of an `if`. -/
lemma append_ite {a : Type} (c : Prop) [Decidable c] (b : List a) (x : a) :
    (if c then b ++ [x] else b) = b ++ (if c then [x] else []) := by
  split <;> simp

/-- Key lookup over an append tries the left list first. -/
lemma lookup_append (k : String) (l1 l2 : List (String × JVal)) :
    (l1 ++ l2).lookup k =
      (match l1.lookup k with
       | some v => some v
       | none => l2.lookup k) := by
  induction l1 with
  | nil => simp [List.lookup]
  | cons hd tl ih =>
    obtain ⟨a, b⟩ := hd
    simp only [List.cons_append, List.lookup]
    split <;> simp [ih]

/-- Key lookup into a conditional singleton. -/
lemma lookup_ite_single (c : Prop) [Decidable c] (key k : String) (v : JVal) :
    List.lookup k (if c then [(key, v)] else []) =
      if c then List.lookup k [(key, v)] else none := by
  split <;> simp

/-- The identity `Option` match. -/
lemma option_match_id (o : Option JVal) :
    (match o with
     | some v => some v
     | none => none) = o := by
  cases o <;> rfl

/-- Variant of `append_ite` with the branches flipped (negated condition). -/
lemma append_ite_flip {a : Type} (c : Prop) [Decidable c] (b : List a) (x : a) :
    (if c then b else b ++ [x]) = b ++ (if c then [] else [x]) := by
  split <;> simp

/-- Variant of `lookup_ite_single` with the branches flipped. -/
lemma lookup_ite_single_flip (c : Prop) [Decidable c] (key k : String) (v : JVal) :
    List.lookup k (if c then [] else [(key, v)]) =
      if c then none else List.lookup k [(key, v)] := by
  split <;> simp

/-- C4: the contact-create payload contains a key for a field exactly when
that field's value is non-empty, and a string-typed `customFields` value
is JSON-parsed before being placed under `custom_fields` (a non-string
truthy value is passed through). -/
theorem contact_create_field_mapping
    (jsonParse : String → JVal) (name email phone fn ln co nt : String) (cf : JVal)
    (hep : ¬(email = "" ∧ phone = "")) :
    ∃ body, buildContactCreateBody jsonParse name email phone
        (JVal.obj [("firstName", JVal.str fn), ("lastName", JVal.str ln),
                   ("company", JVal.str co), ("notes", JVal.str nt),
                   ("customFields", cf)]) = .ok body ∧
      body.lookup "name" = (if name ≠ "" then some (JVal.str name) else none) ∧
      body.lookup "email" = (if email ≠ "" then some (JVal.str email) else none) ∧
      body.lookup "phone" = (if phone ≠ "" then some (JVal.str phone) else none) ∧
      body.lookup "first_name" = (if fn ≠ "" then some (JVal.str fn) else none) ∧
      body.lookup "last_name" = (if ln ≠ "" then some (JVal.str ln) else none) ∧
      body.lookup "company" = (if co ≠ "" then some (JVal.str co) else none) ∧
      body.lookup "notes" = (if nt ≠ "" then some (JVal.str nt) else none) ∧
      body.lookup "custom_fields" =
        (if truthy cf = true then
           some (match cf with | JVal.str s => jsonParse s | v => v)
         else none) := by
  simp only [buildContactCreateBody, if_neg hep]
  simp only [append_ite, append_ite_flip, List.nil_append]
  refine ⟨_, rfl, ?_, ?_, ?_, ?_, ?_, ?_, ?_, ?_⟩ <;>
    · simp only [lookup_append, lookup_ite_single, lookup_ite_single_flip]
      simp [jGetD, jGet, List.lookup, truthy, option_match_id]

/-- Concrete instance of `contact_create_field_mapping`. -/
theorem contact_create_field_mapping_witness :
    ¬("a@b.c" = "" ∧ "" = "") ∧
    (∃ body, buildContactCreateBody (fun s => JVal.obj [("src", JVal.str s)])
        "Ada" "a@b.c" ""
        (JVal.obj [("firstName", JVal.str "Ada"), ("lastName", JVal.str ""),
                   ("company", JVal.str "ACME"), ("notes", JVal.str ""),
                   ("customFields", JVal.str "cf")]) = .ok body ∧
      body.lookup "name" = (if "Ada" ≠ "" then some (JVal.str "Ada") else none) ∧
      body.lookup "email" = (if "a@b.c" ≠ "" then some (JVal.str "a@b.c") else none) ∧
      body.lookup "phone" = (if "" ≠ "" then some (JVal.str "") else none) ∧
      body.lookup "first_name" = (if "Ada" ≠ "" then some (JVal.str "Ada") else none) ∧
      body.lookup "last_name" = (if "" ≠ "" then some (JVal.str "") else none) ∧
      body.lookup "company" = (if "ACME" ≠ "" then some (JVal.str "ACME") else none) ∧
      body.lookup "notes" = (if "" ≠ "" then some (JVal.str "") else none) ∧
      body.lookup "custom_fields" =
        (if truthy (JVal.str "cf") = true then
           some (match JVal.str "cf" with
                 | JVal.str s => (fun s => JVal.obj [("src", JVal.str s)]) s
                 | v => v)
         else none)) :=
  ⟨by decide,
   contact_create_field_mapping (fun s => JVal.obj [("src", JVal.str s)])
     "Ada" "a@b.c" "" "Ada" "" "ACME" "" (JVal.str "cf") (by decide)⟩


/-- From any page `p ≤ 100`, the loop performs at most `101 - p` further
requests, whatever the API returns. -/
lemma allItemsLoop_requests_le (api : Nat → PageResponse) :
    ∀ (n page : Nat), 101 - page = n → page ≤ 100 → ∀ acc count,
      (allItemsLoop api page acc count).2 ≤ count + (101 - page) := by
  intro n
  induction n with
  | zero =>
    intro page h hle acc count
    omega
  | succ m ih =>
    intro page h hle acc count
    rw [allItemsLoop]
    split
    · simp only
      omega
    · split
      · have hrec := ih (page + 1) (by omega) (by omega)
          (acc ++ (api page).items) (count + 1)
        exact hrec.trans (by omega)
      · simp only
        omega

/-- C2: for every sequence of API responses — the pagination envelope may
be absent, inconsistent, or always report more pages — the aggregator
issues at most 100 page requests (and, being a total function, it
terminates). -/
theorem pagination_at_most_100_requests (api : Nat → PageResponse) :
    sendSevenApiRequestAllItemsRequestCount api ≤ 100 := by
  have h := allItemsLoop_requests_le api 100 1 rfl (by omega) [] 0
  simpa [sendSevenApiRequestAllItemsRequestCount] using h

/-- When the envelope is correct for pages `page..N` (`N ≤ 100`), the loop
visits exactly those pages in order, collecting their items and issuing
one request per page. -/
lemma allItemsLoop_correct_envelope (api : Nat → PageResponse) (N : Nat)
    (hN : N ≤ 100)
    (henv : ∀ p, 1 ≤ p → p ≤ N → (api p).pagination = some ((p : Int), (N : Int))) :
    ∀ (n page : Nat), N - page = n → 1 ≤ page → page ≤ N → ∀ acc count,
      allItemsLoop api page acc count =
        (acc ++ (List.range' page (N + 1 - page)).flatMap (fun q => (api q).items),
         count + (N + 1 - page)) := by
  intro n
  induction n with
  | zero =>
    intro page h h1 h2 acc count
    have hpN : page = N := by omega
    subst hpN
    have hlen : page + 1 - page = 1 := by omega
    rw [allItemsLoop]
    simp only [henv page h1 h2, hlen, List.range'_succ, List.range'_zero,
      List.flatMap_cons, List.flatMap_nil, List.append_nil, decide_eq_true_eq]
    split
    · rfl
    · rw [if_neg (lt_irrefl _)]
  | succ m ih =>
    intro page h h1 h2 acc count
    have hlt : page < N := by omega
    have hcond : ¬ (page + 1 > 100) := by omega
    have hmore : (page : Int) < (N : Int) := by exact_mod_cast hlt
    rw [allItemsLoop]
    simp only [henv page h1 h2, decide_eq_true_eq]
    rw [dif_neg hcond, if_pos hmore]
    rw [ih (page + 1) (by omega) (by omega) (by omega)
      (acc ++ (api page).items) (count + 1)]
    have hlen : N + 1 - page = (N - page) + 1 := by omega
    have harith : N + 1 - (page + 1) = N - page := by omega
    rw [hlen, harith, List.range'_succ]
    simp only [List.flatMap_cons, List.append_assoc, Prod.mk.injEq]
    exact ⟨trivial, by omega⟩


/-- Total length of the items of a run of consecutive full pages. -/
lemma flatMap_full_pages_length (f : Nat → List JVal) :
    ∀ (len s : Nat), (∀ p, s ≤ p → p < s + len → (f p).length = 100) →
      ((List.range' s len).flatMap f).length = len * 100 := by
  intro len
  induction len with
  | zero => intro s h; simp
  | succ m ih =>
    intro s h
    rw [List.range'_succ]
    simp only [List.flatMap_cons, List.length_append]
    rw [h s (by omega) (by omega),
      ih (s + 1) (fun p hp1 hp2 => h p (by omega) (by omega))]
    omega

/-- C1: for a simulated API returning `N` pages with a correct
`total_pages` envelope (`1 ≤ N ≤ 100`), where every page before the last
holds exactly 100 items and the final page at most 100, the aggregator
returns the pages' items concatenated in page order: exactly
`(N−1)·100` plus the final page's count, and never more than `N·100`. -/
theorem pagination_aggregates_all_pages (api : Nat → PageResponse) (N : Nat)
    (h1 : 1 ≤ N) (h100 : N ≤ 100)
    (henv : ∀ p, 1 ≤ p → p ≤ N → (api p).pagination = some ((p : Int), (N : Int)))
    (hfull : ∀ p, 1 ≤ p → p < N → ((api p).items).length = 100)
    (hlast : ((api N).items).length ≤ 100) :
    sendSevenApiRequestAllItems api =
      (List.range' 1 N).flatMap (fun p => (api p).items) ∧
    (sendSevenApiRequestAllItems api).length =
      (N - 1) * 100 + ((api N).items).length ∧
    (sendSevenApiRequestAllItems api).length ≤ N * 100 := by
  have hmain := allItemsLoop_correct_envelope api N h100 henv (N - 1) 1
    (by omega) (by omega) (by omega) [] 0
  have hN1 : N + 1 - 1 = N := by omega
  rw [hN1] at hmain
  have heq : sendSevenApiRequestAllItems api =
      (List.range' 1 N).flatMap (fun q => (api q).items) := by
    simp [sendSevenApiRequestAllItems, hmain]
  have hsplit := List.range'_append 1 (N - 1) 1 1
  have e1 : 1 + 1 * (N - 1) = N := by omega
  have e2 : 1 + (N - 1) = N := by omega
  rw [e1, e2] at hsplit
  have hone : List.range' N 1 = [N] := by simp [List.range'_succ]
  have hlen2 : (sendSevenApiRequestAllItems api).length =
      (N - 1) * 100 + ((api N).items).length := by
    rw [heq, ← hsplit, List.flatMap_append, List.length_append,
      flatMap_full_pages_length (fun p => (api p).items) (N - 1) 1
        (fun p hp1 hp2 => hfull p hp1 (by omega)),
      hone]
    simp
  exact ⟨heq, hlen2, by rw [hlen2]; omega⟩

/-- A two-page API: a full first page and a short (50-item) final page,
with a correct pagination envelope. -/
def c1Api : Nat → PageResponse := fun p =>
  if p = 1 then
    { items := List.replicate 100 (JVal.num 1), pagination := some (1, 2) }
  else
    { items := List.replicate 50 (JVal.num 2), pagination := some ((p : Int), 2) }

/-- Concrete instance of `pagination_aggregates_all_pages` at `N = 2`. -/
theorem pagination_aggregates_all_pages_witness :
    sendSevenApiRequestAllItems c1Api =
      (List.range' 1 2).flatMap (fun p => (c1Api p).items) ∧
    (sendSevenApiRequestAllItems c1Api).length =
      (2 - 1) * 100 + ((c1Api 2).items).length ∧
    (sendSevenApiRequestAllItems c1Api).length ≤ 2 * 100 :=
  pagination_aggregates_all_pages c1Api 2 (by omega) (by omega)
    (fun p hp1 hp2 => by
      rcases (by omega : p = 1 ∨ p = 2) with rfl | rfl <;> rfl)
    (fun p hp1 hp2 => by
      have hp : p = 1 := by omega
      subst hp
      simp [c1Api])
    (by simp [c1Api])
